import Mathlib

/-!
Verification of the km3db client library (files km3db/core.py and
km3db/tools.py) against its natural-language specification.

The Python sources are shallowly embedded below.  Python strings are Lean
String values; all string primitives used by the source (split, strip,
lower, startswith, substring containment, lexicographic comparison) are
re-implemented structurally over the character list so that every
definition evaluates inside the kernel.  Python dictionaries are modelled
as association lists with replace-in-place insertion, which preserves the
key-insertion order exactly as CPython dict and OrderedDict do.  A Python
function that can either raise or return is modelled with Except, where
Except.error is a raised exception and Except.ok a returned value (ok none
is a returned None).  Emitted log records are returned alongside results
as a list of LogEntry values.
-/

/-! ## Python string primitives, re-implemented structurally -/

/-- Fuel-driven worker for pySplitOn.  The fuel starts at the length of the
input, and each step consumes at least one character and exactly one unit
of fuel, so the zero-fuel branch is unreachable for nonempty separators. -/
def splitCharsF (sep : List Char) : Nat → List Char → List Char → List (List Char)
  | _, [], acc => [acc.reverse]
  | 0, cs, acc => [acc.reverse ++ cs]
  | fuel + 1, c :: cs, acc =>
    if sep.isPrefixOf (c :: cs) then
      acc.reverse :: splitCharsF sep fuel (List.drop (sep.length - 1) cs) []
    else
      splitCharsF sep fuel cs (c :: acc)

/-- Python str.split(sep) for a nonempty separator string: non-overlapping
left-to-right splits, keeping empty pieces. -/
def pySplitOn (s sep : String) : List String :=
  (splitCharsF sep.data s.data.length s.data []).map (fun l => ⟨l⟩)

/-- Worker for pySplitWs: split on whitespace runs, dropping empty pieces. -/
def splitWsChars : List Char → List Char → List (List Char)
  | [], acc => if acc.isEmpty then [] else [acc.reverse]
  | c :: cs, acc =>
    if c.isWhitespace then
      if acc.isEmpty then splitWsChars cs [] else acc.reverse :: splitWsChars cs []
    else
      splitWsChars cs (c :: acc)

/-- Python str.split() with no argument: split on runs of whitespace and
drop empty pieces. -/
def pySplitWs (s : String) : List String :=
  (splitWsChars s.data []).map (fun l => ⟨l⟩)

/-- Python str.strip(): remove leading and trailing whitespace. -/
def pyStrip (s : String) : String :=
  ⟨((s.data.dropWhile Char.isWhitespace).reverse.dropWhile Char.isWhitespace).reverse⟩

/-- Python str.lower() restricted to ASCII, which covers all header names
appearing in the database responses. -/
def pyToLower (s : String) : String :=
  ⟨s.data.map Char.toLower⟩

/-- Python str.startswith(pat). -/
def pyStartsWith (s pat : String) : Bool :=
  pat.data.isPrefixOf s.data

/-- Worker for strContains: does pat occur as a contiguous sublist? -/
def hasSubstrList (pat : List Char) : List Char → Bool
  | [] => pat.isEmpty
  | c :: cs => pat.isPrefixOf (c :: cs) || hasSubstrList pat cs

/-- Python membership test pat in s on strings: substring containment. -/
def strContains (s pat : String) : Bool :=
  hasSubstrList pat.data s.data

/-- Lexicographic less-or-equal on character lists by code point; this is
how Python compares strings. -/
def charListLe : List Char → List Char → Bool
  | [], _ => true
  | _ :: _, [] => false
  | a :: as, b :: bs => if a < b then true else if a = b then charListLe as bs else false

/-- Python string less-or-equal (lexicographic by code point). -/
def pyStrLe (a b : String) : Bool :=
  charListLe a.data b.data

/-! ## Log records -/

/-- Severity levels of the logging module as used by km3db. -/
inductive LogLevel where
  | debug
  | info
  | warning
  | error
  | critical
deriving DecidableEq, Repr

/-- One emitted log record: severity plus message text. -/
structure LogEntry where
  level : LogLevel
  msg : String
deriving DecidableEq, Repr

/-! ## Python dict as an association list

CPython dict assignment keeps the position of an existing key and replaces
its value, and appends new keys at the end; lookup raising KeyError is
modelled by Option.  OrderedDict behaves identically for the operations
the source uses. -/

/-- Python d[k] = v. -/
def dictInsert {α β : Type} [DecidableEq α] : List (α × β) → α → β → List (α × β)
  | [], k, v => [(k, v)]
  | (k', v') :: rest, k, v =>
    if k' = k then (k, v) :: rest else (k', v') :: dictInsert rest k v

/-- Python d[k] read access; none models a raised KeyError. -/
def dictLookup {α β : Type} [DecidableEq α] : List (α × β) → α → Option β
  | [], _ => none
  | (k', v) :: rest, k => if k' = k then some v else dictLookup rest k

/-! ## core.py: whitelist check and session cookie (lines 50-96)

The network environment visible to on_whitelisted_host is captured by
NetEnv: the IP that socket.gethostbyname resolves the local hostname to
(none models a raised socket.gaierror), the resolution of
jupyter.km3net.de, and the external IP reported by the ident.me service.
The gitlab branch performs its HTTP request with no exception handler, so
a transport failure there would propagate; NetEnv models the successful
case, which is the only one the claims about session_cookie need. -/

structure NetEnv where
  localIp : Option String
  jupyterIp : String
  externalIp : String

/-- The hard-coded SESSION_COOKIES dict of core.py (lines 50-54), in its
insertion order. -/
def SESSION_COOKIES : List (String × String) :=
  [("lyon", "_kmcprod_134.158_lyo7783844001343100343mcprod1223user"),
   ("jupyter", "_jupyter-km3net_131.188.161.143_d9fe89a1568a49a5ac03bdf15d93d799"),
   ("gitlab", "_gitlab-km3net_131.188.161.155_f835d56ca6d946efb38324d59e040761")]

/-- on_whitelisted_host of core.py (lines 138-156).  A name that is none of
the three known networks falls off the end of the Python function, which
returns None; None is falsy, modelled as false. -/
def onWhitelistedHost (env : NetEnv) (name : String) : Bool :=
  if name = "lyon" then
    match env.localIp with
    | none => false
    | some ip => pyStartsWith ip "134.158."
  else if name = "jupyter" then
    match env.localIp with
    | none => false
    | some ip => ip = env.jupyterIp
  else if name = "gitlab" then
    env.externalIp = "131.188.161.155"
  else
    false

/-- The value held by self._session_cookie after the for loop of
session_cookie (core.py lines 91-93) has run: the loop body assigns the
fixed cookie of every whitelisted network it encounters. -/
def whitelistLoopCookie (env : NetEnv) : Option String :=
  SESSION_COOKIES.foldl
    (fun acc hc => if onWhitelistedHost env hc.1 then some hc.2 else acc) none

/-- The body of the session_cookie property (core.py lines 88-96) on a cold
cache (self._session_cookie is None).  The for loop over SESSION_COOKIES
contains no break statement, so the for-else clause on lines 94-95 always
executes after the loop and assigns the result of _request_session_cookie,
overwriting whatever the loop stored.  requestResult is the value
_request_session_cookie would return; the returned Bool records whether
_request_session_cookie was called. -/
def sessionCookieResolve (env : NetEnv) (requestResult : Option String) :
    Option String × Bool :=
  let _cookieAfterLoop := whitelistLoopCookie env
  (requestResult, true)

/-! ## core.py: DBManager.get (lines 66-86) -/

/-- Outcome of opener.open plus the subsequent read in DBManager.get.
httpError is a structured urllib HTTPError (4xx/5xx); urlError is a
URLError that is not an HTTPError, for example a DNS resolution failure,
which the source does not catch; truncated models an IncompleteRead raised
during read, carrying the bytes received so far. -/
inductive UrlOpenResult where
  | success (content : String)
  | httpError (e : String)
  | urlError (e : String)
  | truncated (received : String)
deriving DecidableEq, Repr

/-- The error message of DBManager.get on an HTTPError. -/
def httpErrMsg (e targetUrl : String) : String :=
  "HTTP error, your session may be expired. Original HTTP error: " ++ e
    ++ " Target URL: " ++ targetUrl

/-- DBManager.get (core.py lines 66-86), given the already-joined target
URL and the transport outcome.  Except.error models an exception
propagating out of get; Except.ok d models returning d, where the caller
supplied default (None by default) is d on the HTTPError path. -/
def dbGet (targetUrl : String) (resp : UrlOpenResult) (dflt : Option String) :
    Except String (Option String) × List LogEntry :=
  match resp with
  | .httpError e => (Except.ok dflt, [⟨.error, httpErrMsg e targetUrl⟩])
  | .urlError e => (Except.error e, [])
  | .success content =>
    (Except.ok (some content),
     [⟨.debug, "Got " ++ toString content.length ++ " bytes of data."⟩])
  | .truncated received =>
    (Except.ok (some received),
     [⟨.error, "Incomplete data received from the DB."⟩,
      ⟨.debug, "Got " ++ toString received.length ++ " bytes of data."⟩])

/-! ## core.py: the session-id pattern (line 57) and the login tail

The compiled pattern is   _[a-z0-9-]+_(\d{1,3}.){1,3}\d{1,3}_[a-z0-9]+
and is used through re.match, which succeeds when some PREFIX of the
string starting at position 0 matches.  The dot in the pattern is not
escaped, so it matches any character except a newline.  The matcher below
is a hand compilation of exactly this pattern in continuation-passing
style; a continuation receives the remaining characters.  Truthiness of
re.match is existence of a match, so greediness is irrelevant and the
matcher simply searches all split points. -/

/-- Character class [a-z0-9-] (ASCII, as in Python re on this pattern). -/
def isLowerAlnumDash (c : Char) : Bool :=
  c.isLower || c.isDigit || c = '-'

/-- Character class [a-z0-9]. -/
def isLowerAlnum (c : Char) : Bool :=
  c.isLower || c.isDigit

/-- Matches one literal underscore. -/
def matchUnd (cs : List Char) (k : List Char → Bool) : Bool :=
  match cs with
  | [] => false
  | c :: rest => c = '_' && k rest

/-- Matches one or more characters of class p, trying every split point. -/
def clsPlus (p : Char → Bool) : List Char → (List Char → Bool) → Bool
  | [], _ => false
  | c :: cs, k => p c && (k cs || clsPlus p cs k)

/-- Matches \d{1,3}: one, two or three digits, trying every count. -/
def matchDigits13 (cs : List Char) (k : List Char → Bool) : Bool :=
  match cs with
  | [] => false
  | d1 :: r1 =>
    d1.isDigit && (k r1 ||
      match r1 with
      | [] => false
      | d2 :: r2 =>
        d2.isDigit && (k r2 ||
          match r2 with
          | [] => false
          | d3 :: r3 => d3.isDigit && k r3))

/-- Matches the group separator: with anySep true it is the unescaped
regex dot of the source, which matches any character except a newline;
with anySep false it is a literal dot, as the specification words it. -/
def matchSep (anySep : Bool) (cs : List Char) (k : List Char → Bool) : Bool :=
  match cs with
  | [] => false
  | c :: rest => (if anySep then !(c = '\n') else c = '.') && k rest

/-- Matches one group \d{1,3}. (digits then separator). -/
def matchGroup (anySep : Bool) (cs : List Char) (k : List Char → Bool) : Bool :=
  matchDigits13 cs (fun r => matchSep anySep r k)

/-- Matches (\d{1,3}.){1,3}: one, two or three groups. -/
def matchGroups13 (anySep : Bool) (cs : List Char) (k : List Char → Bool) : Bool :=
  matchGroup anySep cs (fun r1 =>
    k r1 || matchGroup anySep r1 (fun r2 =>
      k r2 || matchGroup anySep r2 k))

/-- The whole pattern _[a-z0-9-]+_(\d{1,3}SEP){1,3}\d{1,3}_[a-z0-9]+
applied to a string, with the given separator mode and final
continuation. -/
def sidMatch (anySep : Bool) (tail : List Char → Bool) (s : String) : Bool :=
  matchUnd s.data (fun r1 =>
    clsPlus isLowerAlnumDash r1 (fun r2 =>
      matchUnd r2 (fun r3 =>
        matchGroups13 anySep r3 (fun r4 =>
          matchDigits13 r4 (fun r5 =>
            matchUnd r5 (fun r6 =>
              clsPlus isLowerAlnum r6 tail))))))

/-- Truthiness of _cookie_sid_pattern.match(cookie) in the source: the
unescaped dot matches any non-newline character and re.match only anchors
at the start, leaving trailing characters unconstrained. -/
def cookieSidMatch (s : String) : Bool :=
  sidMatch true (fun _ => true) s

/-- Modelled from the spec: the token pattern as the specification words
it, with literal dot separators and the whole token matching (segments of
_[a-z0-9-]+_ then 1-3 dotted numeric groups then _[a-z0-9]+).  Kept
separate from cookieSidMatch, which embeds the source pattern, so the two
can be compared. -/
def specSidMatch (s : String) : Bool :=
  sidMatch false (fun rest => rest.isEmpty) s

/-- cookie.split("sid=")[-1] of core.py line 128: the substring after the
last sid= marker. -/
def extractSid (body : String) : String :=
  (pySplitOn body "sid=").getLastD ""

/-- The tail of _request_session_cookie (core.py lines 120-134) after the
login HTTP request returned the given body: extract the token after the
last sid= marker, validate it against _cookie_sid_pattern, and on mismatch
log a critical failure and return None. -/
def loginCookieResult (body : String) : Option String × List LogEntry :=
  let cookie := extractSid body
  if cookieSidMatch cookie then (some cookie, [])
  else (none, [⟨.critical, "Wrong username or password."⟩])

/-- The credential environment of _request_session_cookie: the two
environment variables, the persisted cookie file (none when the file does
not exist, otherwise its content), the interactive answers, and the login
endpoint response body as a function of the username and password sent. -/
structure CredEnv where
  envUsername : Option String
  envPassword : Option String
  cookieFile : Option String
  inputUsername : String
  inputPassword : String
  loginBody : String → String → String

/-- _request_session_cookie (core.py lines 98-134).  The environment
variables are read first, but the cookie file check on line 106 is not
guarded by them: when the file exists its last tab-separated field is
returned immediately and neither the environment credentials nor the login
endpoint are ever used.  Only when the file is absent do the environment
variables (or, when unset, the interactive prompts) supply the credentials
for the login request. -/
def requestSessionCookie (env : CredEnv) : Option String × List LogEntry :=
  let username := env.envUsername
  let password := env.envPassword
  match env.cookieFile with
  | some content => (some (pyStrip ((pySplitOn content "\t").getLastD "")), [])
  | none =>
    let u := username.getD env.inputUsername
    let p := password.getD env.inputPassword
    loginCookieResult (env.loginBody u p)

/-! ## tools.py: tonamedtuples (lines 20-30) and the stream catalog

A namedtuple row is modelled as an association of field name to field
value.  tonamedtuples in this source performs no type conversion: every
field value is the raw tab-separated string.  Python namedtuple creation
fails on duplicate field names, and row construction fails when the number
of values differs from the number of fields; both are modelled by
returning none (a raised exception). -/

/-- One namedtuple row: field names (lowercased header words, in order)
paired with the raw string values. -/
structure PyRec where
  fields : List (String × String)
deriving DecidableEq, Repr

/-- Attribute access r.name on a row; none models AttributeError. -/
def PyRec.attr (r : PyRec) (name : String) : Option String :=
  dictLookup r.fields name

/-- True when the list has no duplicates (namedtuple rejects duplicate
field names). -/
def nodupB : List String → Bool
  | [] => true
  | x :: xs => !(xs.contains x) && nodupB xs

/-- Builds one PyRec per data line by positional tab-split; a line whose
value count differs from the field count makes namedtuple construction
raise, modelled as none. -/
def parseRows (names : List String) : List String → Option (List PyRec)
  | [] => some []
  | line :: rest =>
    let vals := pySplitOn line "\t"
    if vals.length = names.length then
      match parseRows names rest with
      | some rs => some (⟨names.zip vals⟩ :: rs)
      | none => none
    else none

/-- The sort key s.stream used by tonamedtuples with sort=True; callers
guard that the attribute exists, so the default is never reached there. -/
def streamKey (r : PyRec) : String :=
  (r.attr "stream").getD ""

/-- The ordering Python sorted uses with key s.stream: string comparison
of the stream fields. -/
def streamLe (a b : PyRec) : Prop :=
  pyStrLe (streamKey a) (streamKey b) = true

instance : DecidableRel streamLe :=
  fun _ _ => inferInstanceAs (Decidable (_ = true))

/-- tonamedtuples (tools.py lines 20-30): split into lines, derive the
field names from the first line (whitespace-split, lowercased), build one
record per nonempty remaining line, and when sort is requested return the
records stably sorted by their stream field.  Python sorted raises when a
record lacks the stream attribute (only possible when the row list is
nonempty), modelled by the all-guard.  Python sorted is a stable sort over
a total preorder, so it is extensionally insertion sort. -/
def tonamedtuples (text : String) (sort : Bool) : Option (List PyRec) :=
  let lines := pySplitOn text "\n"
  let names := (pySplitWs (lines.headD "")).map pyToLower
  if nodupB names then
    match parseRows names ((lines.drop 1).filter (fun l => l ≠ "")) with
    | none => none
    | some recs =>
      if sort then
        if recs.all (fun r => (r.attr "stream").isSome) then
          some (List.insertionSort streamLe recs)
        else none
      else some recs
  else none

/-- StreamDS._update_streams (tools.py lines 62-68), given the text the
catalog endpoint returned: parse it sorted by stream name and insert every
entry into the OrderedDict self._streams keyed by its stream field. -/
def updateStreams (content : String) : Option (List (String × PyRec)) :=
  match tonamedtuples content true with
  | none => none
  | some entries =>
    some (entries.foldl (fun m e => dictInsert m (streamKey e) e) [])

/-! ## tools.py: StreamDS.get (lines 111-142) -/

/-- The shapes StreamDS.get can return on success: the raw text (container
None or unrecognized), the namedtuple rows (container nt), or the text as
handed to the pandas table parser (container pd). -/
inductive QueryResult where
  | raw (s : String)
  | records (rs : List PyRec)
  | frame (s : String)
deriving DecidableEq, Repr

/-- The selector string: the concatenation of &key=value for the keyword
arguments in order, as built on tools.py line 124. -/
def buildSel (kwargs : List (String × String)) : String :=
  kwargs.foldl (fun acc kv => acc ++ "&" ++ kv.1 ++ "=" ++ kv.2) ""

/-- The stream query URL streamds/{stream}.{fmt}?{sel[1:]} of line 125. -/
def streamUrl (stream fmt : String) (kwargs : List (String × String)) : String :=
  "streamds/" ++ stream ++ "." ++ fmt ++ "?" ++ (buildSel kwargs).drop 1

/-- The error message logged when the database returned no data. -/
def noDataMsg (url : String) : String :=
  "No data found at URL " ++ url ++ "."

/-- StreamDS.get (tools.py lines 111-142), given the text the underlying
DBManager.get returned (none models its None default on an HTTP error).
A falsy body (None or empty) and a body starting with ERROR are logged at
error level and turned into a returned None before any container handling.
Otherwise the requested container (falling back to the instance default)
decodes the data; a failing namedtuple decode raises, modelled as
Except.error. -/
def streamDSGet (stream fmt : String) (container dfltContainer : Option String)
    (kwargs : List (String × String)) (resp : Option String) :
    Except String (Option QueryResult) × List LogEntry :=
  let url := streamUrl stream fmt kwargs
  match resp with
  | none => (Except.ok none, [⟨.error, noDataMsg url⟩])
  | some data =>
    if data = "" then (Except.ok none, [⟨.error, noDataMsg url⟩])
    else if pyStartsWith data "ERROR" then (Except.ok none, [⟨.error, data⟩])
    else
      let c := match container with
        | none => dfltContainer
        | some c => some c
      if c = some "pd" then (Except.ok (some (.frame data)), [])
      else if c = some "nt" then
        match tonamedtuples data false with
        | some recs => (Except.ok (some (.records recs)), [])
        | none => (Except.error "TypeError", [])
      else (Except.ok (some (.raw data)), [])

/-! ## tools.py: StreamDS.__getattr__ (lines 70-94) -/

/-- The bound operation __getattr__ builds for a catalog stream: a closure
func(**kwargs) that forwards to self.get(attr, **kwargs). -/
structure BoundStreamCall where
  stream : String
deriving DecidableEq, Repr

/-- Calling the bound operation: StreamDS.get with the bound stream name,
the default format txt and no explicit container. -/
def BoundStreamCall.run (b : BoundStreamCall) (dfltContainer : Option String)
    (kwargs : List (String × String)) (resp : Option String) :
    Except String (Option QueryResult) × List LogEntry :=
  streamDSGet b.stream "txt" none dfltContainer kwargs resp

/-- StreamDS.__getattr__ (tools.py lines 70-94) over the built catalog:
a name present in self.streams yields the bound closure, any other name
raises AttributeError, modelled as none. -/
def getattrStream (streams : List (String × PyRec)) (attr : String) :
    Option BoundStreamCall :=
  match dictLookup streams attr with
  | some _ => some ⟨attr⟩
  | none => none

/-! ## tools.py: CLBMap (lines 145-205)

tonamedtuples yields rows whose fields are all strings, so the values of
a clbmap row are strings.  The fields are carried as PyVal, the subset of
Python values reaching these comparisons, so that the source comparisons
of a field against an int literal and dict lookups with int keys can be
expressed: Python equality between an int and a str is False. -/

/-- A Python value appearing in the CLBMap code paths. -/
inductive PyVal where
  | str (s : String)
  | int (n : Int)
deriving DecidableEq, Repr

/-- Python == restricted to PyVal: cross-type comparison is False. -/
def pyEq : PyVal → PyVal → Bool
  | .str a, .str b => a = b
  | .int a, .int b => a = b
  | _, _ => false

/-- One row of the clbmap stream as produced by tonamedtuples, keeping the
four fields the CLBMap code paths read. -/
structure CLB where
  upi : PyVal
  domid : PyVal
  du : PyVal
  floor : PyVal
deriving DecidableEq, Repr

/-- CLBMap._populate (tools.py lines 201-205): a dict from getattr(clb, by)
to the row, later rows overwriting earlier ones. -/
def populateBy (key : CLB → PyVal) (data : List CLB) : List (PyVal × CLB) :=
  data.foldl (fun m clb => dictInsert m (key clb) clb) []

/-- The upis index (tools.py lines 163-169): keyed by the upi field. -/
def upisDict (data : List CLB) : List (PyVal × CLB) :=
  populateBy (fun clb => clb.upi) data

/-- The dom_ids index (tools.py lines 171-177): keyed by the domid field. -/
def domIdsDict (data : List CLB) : List (PyVal × CLB) :=
  populateBy (fun clb => clb.domid) data

/-- The base dict built by CLBMap.base (tools.py lines 191-198): iterate
the values of the upis dict and keep, keyed by du, the rows whose floor
field compares equal to the int literal 0 under Python equality. -/
def baseDict (data : List CLB) : List (PyVal × CLB) :=
  ((upisDict data).map Prod.snd).foldl
    (fun m clb => if pyEq clb.floor (.int 0) then dictInsert m clb.du clb else m) []

/-- CLBMap.base(du) (tools.py line 199): dict lookup in the base dict;
none models the raised KeyError. -/
def clbBase (data : List CLB) (du : PyVal) : Option CLB :=
  dictLookup (baseDict data) du

/-! ## tools.py: clbupi2compassupi (lines 208-219) -/

/-- The compass candidates: the content UPIs of the integration stream
that contain AHRS or LSM303 as a substring (tools.py line 213). -/
def compassMatches (upis : List String) : List String :=
  upis.filter (fun u => strContains u "AHRS" || strContains u "LSM303")

/-- clbupi2compassupi (tools.py lines 208-219), given the content_upi
column of the integration stream rows for the CLB UPI.  A warning is
logged when more than one candidate matched; the function then returns
compass_upis[0], which raises IndexError when no candidate matched:
Except.error models that raised exception, and a returned None would be
Except.ok none, which no branch produces. -/
def clbupi2compassupi (clbUpi : String) (upis : List String) :
    Except String (Option String) × List LogEntry :=
  let cs := compassMatches upis
  let logs : List LogEntry :=
    if 1 < cs.length then
      [⟨.warning, "Multiple compass UPIs found for CLB UPI " ++ clbUpi
        ++ ". Using the first entry."⟩]
    else []
  match cs with
  | [] => (Except.error "IndexError: list index out of range", logs)
  | u :: _ => (Except.ok (some u), logs)

/-! ## Helper lemmas about the dict model -/

theorem dictLookup_insert_self {α β : Type} [DecidableEq α]
    (m : List (α × β)) (k : α) (v : β) :
    dictLookup (dictInsert m k v) k = some v := by
  induction m with
  | nil => simp [dictInsert, dictLookup]
  | cons p rest ih =>
    obtain ⟨k', v'⟩ := p
    by_cases h : k' = k
    · simp [dictInsert, dictLookup, h]
    · simp [dictInsert, dictLookup, h, ih]

theorem dictLookup_insert_ne {α β : Type} [DecidableEq α]
    (m : List (α × β)) {k' k : α} (v : β) (h : k' ≠ k) :
    dictLookup (dictInsert m k' v) k = dictLookup m k := by
  induction m with
  | nil => simp [dictInsert, dictLookup, h]
  | cons p rest ih =>
    obtain ⟨ka, va⟩ := p
    by_cases h2 : ka = k'
    · subst h2
      simp [dictInsert, dictLookup, h]
    · simp [dictInsert, dictLookup, h2, ih]

theorem dictLookup_foldl_not_key {α β : Type} [DecidableEq α] (key : β → α)
    (xs : List β) (m : List (α × β)) (k : α) (h : ∀ x ∈ xs, key x ≠ k) :
    dictLookup (xs.foldl (fun m x => dictInsert m (key x) x) m) k = dictLookup m k := by
  induction xs generalizing m with
  | nil => rfl
  | cons x xs ih =>
    simp only [List.foldl_cons]
    rw [ih _ (fun y hy => h y (List.mem_cons_of_mem _ hy))]
    exact dictLookup_insert_ne m x (h x (List.mem_cons_self x xs))

theorem dictLookup_populate_mem {α β : Type} [DecidableEq α] (key : β → α)
    (xs : List β) (hnd : xs.Pairwise (fun a b => key a ≠ key b)) (r : β) (hr : r ∈ xs) :
    ∀ m, dictLookup (xs.foldl (fun m x => dictInsert m (key x) x) m) (key r) = some r := by
  induction xs with
  | nil => cases hr
  | cons x xs ih =>
    intro m
    simp only [List.foldl_cons]
    rcases List.mem_cons.mp hr with h | h
    · subst h
      have hk : ∀ y ∈ xs, key y ≠ key r := fun y hy =>
        Ne.symm ((List.pairwise_cons.mp hnd).1 y hy)
      rw [dictLookup_foldl_not_key key xs _ _ hk, dictLookup_insert_self]
    · exact ih (List.pairwise_cons.mp hnd).2 h _

/-! ## Claim C1 -/

/-- Claim C1 (code bug): the claim states that on a whitelisted host
session_cookie returns that network and performs no login request.  On the
code, the for loop of session_cookie (core.py lines 91-95) has no break,
so its for-else clause always runs: on a Lyon host (local IP starting with
134.158.) the loop does store the fixed Lyon token, yet the final cookie
is whatever _request_session_cookie returned (here None), and
_request_session_cookie is called (second component true). -/
theorem c1_whitelisted_host_still_requests_login :
    onWhitelistedHost ⟨some "134.158.10.1", "131.188.161.143", "10.0.0.1"⟩ "lyon" = true ∧
    whitelistLoopCookie ⟨some "134.158.10.1", "131.188.161.143", "10.0.0.1"⟩ =
      some "_kmcprod_134.158_lyo7783844001343100343mcprod1223user" ∧
    sessionCookieResolve ⟨some "134.158.10.1", "131.188.161.143", "10.0.0.1"⟩ none =
      (none, true) := by
  refine ⟨by decide, by decide, rfl⟩

/-! ## Claim C2 -/

/-- Claim C2 (code bug): the claim states that environment variables take
precedence over the persisted cookie file.  On the code
(_request_session_cookie, core.py lines 98-115), whenever the cookie file
exists its last tab-separated field is returned, for every value of both
environment variables and whatever the login endpoint would answer: the
environment credentials are never used. -/
theorem c2_cookie_file_shadows_env_credentials (u p iu ip : String)
    (login : String → String → String) :
    requestSessionCookie ⟨some u, some p, some "username\tfiletoken\n", iu, ip, login⟩ =
      (some "filetoken", []) := by
  rfl

/-! ## Claim C3 -/

/-- Claim C3 counterexample: a DNS failure inside DBManager.get is a
URLError, which the source does not catch (only HTTPError is caught,
core.py lines 69-77), so at this concrete input get propagates the
exception instead of converting it to the caller-supplied default None. -/
theorem c3_counterexample_dns_propagates :
    (dbGet "https://km3netdbweb.in2p3.fr/streamds"
      (.urlError "gaierror: Name or service not known") none).1 =
      Except.error "gaierror: Name or service not known" ∧
    (dbGet "https://km3netdbweb.in2p3.fr/streamds"
      (.urlError "gaierror: Name or service not known") none).1 ≠
      Except.ok none :=
  ⟨rfl, fun h => Except.noConfusion h⟩

/-- Claim C3 amended: DBManager.get converts structured HTTP errors to the
caller-supplied default with an error log naming the target URL, returns
the bytes received so far on an incomplete read with an error log, and
returns the decoded body on success; but a transport failure that is not a
structured HTTP error (a URLError such as a DNS failure) propagates as an
exception to the caller. -/
theorem c3_amended_transport_errors (targetUrl e received content : String)
    (dflt : Option String) :
    dbGet targetUrl (.httpError e) dflt =
      (Except.ok dflt, [⟨.error, httpErrMsg e targetUrl⟩]) ∧
    dbGet targetUrl (.truncated received) dflt =
      (Except.ok (some received),
       [⟨.error, "Incomplete data received from the DB."⟩,
        ⟨.debug, "Got " ++ toString received.length ++ " bytes of data."⟩]) ∧
    dbGet targetUrl (.success content) dflt =
      (Except.ok (some content),
       [⟨.debug, "Got " ++ toString content.length ++ " bytes of data."⟩]) ∧
    dbGet targetUrl (.urlError e) dflt = (Except.error e, []) :=
  ⟨rfl, rfl, rfl, rfl⟩

/-! ## Claim C4 -/

/-- Claim C4 counterexample: the dot in _cookie_sid_pattern (core.py line
57) is not escaped, so it matches any non-newline character.  The token
_a_1x2_b is accepted by the login path (re.match succeeds, the token is
returned with no critical log), yet it does not match the pattern the
claim states, with literal dot separators. -/
theorem c4_counterexample_unescaped_dot :
    cookieSidMatch "_a_1x2_b" = true ∧
    specSidMatch "_a_1x2_b" = false ∧
    loginCookieResult "sid=_a_1x2_b" = (some "_a_1x2_b", []) := by
  decide

/-- Claim C4 amended: every token accepted by the login path of
_request_session_cookie matches the pattern actually compiled in the
source, in which the separator dot matches any non-newline character and
matching is only anchored at the start (trailing characters are
unconstrained); and for every login response whose extracted token fails
that pattern, the login path logs a critical failure and returns None
without caching. -/
theorem c4_amended_token_validation (body : String) :
    (∀ t logs, loginCookieResult body = (some t, logs) →
      cookieSidMatch t = true ∧ logs = []) ∧
    (cookieSidMatch (extractSid body) = false →
      loginCookieResult body = (none, [⟨LogLevel.critical, "Wrong username or password."⟩])) := by
  constructor
  · intro t logs h
    by_cases hc : cookieSidMatch (extractSid body)
    · simp only [loginCookieResult, hc, if_true, Prod.mk.injEq, Option.some.injEq] at h
      obtain ⟨h1, h2⟩ := h
      subst h1
      subst h2
      exact ⟨hc, rfl⟩
    · simp only [loginCookieResult, hc] at h
      simp at h
  · intro h
    simp only [loginCookieResult, h]
    simp

/-- Claim C4 witness: the amended theorem applied at two concrete login
response bodies, one with a failing token and one with an accepted one. -/
theorem c4_amended_token_validation_witness :
    loginCookieResult "sid=bad" =
      (none, [⟨LogLevel.critical, "Wrong username or password."⟩]) ∧
    (cookieSidMatch "_kmcprod_134.158_lyouser" = true ∧ ([] : List LogEntry) = []) :=
  ⟨(c4_amended_token_validation "sid=bad").2 (by decide),
   (c4_amended_token_validation "sid=_kmcprod_134.158_lyouser").1
     "_kmcprod_134.158_lyouser" [] (by decide)⟩

/-! ## Claim C5 -/

/-- Claim C5: StreamDS.get logs an error mentioning no data found at the
built URL and returns None when the response body is falsy (None or
empty), and logs the error text and returns None when the body starts
with ERROR; in both cases no exception is raised (the result is Except.ok,
not Except.error). -/
theorem c5_stream_get_error_paths (stream fmt : String)
    (container dfltContainer : Option String) (kwargs : List (String × String))
    (resp : Option String) :
    ((resp = none ∨ resp = some "") →
      streamDSGet stream fmt container dfltContainer kwargs resp =
        (Except.ok none, [⟨LogLevel.error, noDataMsg (streamUrl stream fmt kwargs)⟩])) ∧
    (∀ s, resp = some s → pyStartsWith s "ERROR" = true →
      streamDSGet stream fmt container dfltContainer kwargs resp =
        (Except.ok none, [⟨LogLevel.error, s⟩])) := by
  constructor
  · rintro (rfl | rfl)
    · rfl
    · rfl
  · rintro s rfl hs
    have hne : s ≠ "" := by
      intro h
      subst h
      exact absurd hs (by decide)
    simp [streamDSGet, hne, hs]

/-- Claim C5 witness: the theorem applied at an ERROR body and at a
missing body. -/
theorem c5_stream_get_error_paths_witness :
    streamDSGet "runs" "txt" none none [] (some "ERROR: bad param") =
      (Except.ok none, [⟨LogLevel.error, "ERROR: bad param"⟩]) ∧
    streamDSGet "runs" "txt" none none [] none =
      (Except.ok none, [⟨LogLevel.error, noDataMsg (streamUrl "runs" "txt" [])⟩]) :=
  ⟨(c5_stream_get_error_paths "runs" "txt" none none [] (some "ERROR: bad param")).2
     "ERROR: bad param" rfl (by decide),
   (c5_stream_get_error_paths "runs" "txt" none none [] none).1 (Or.inl rfl)⟩

/-! ## Claim C6 -/

/-- Claim C6: over the built stream catalog, attribute access with a name
present in the catalog yields a bound operation that forwards its keyword
arguments to StreamDS.get for that stream, and attribute access with any
absent name raises AttributeError (modelled as none). -/
theorem c6_getattr_catalog (streams : List (String × PyRec)) (attr : String) :
    ((∃ e, dictLookup streams attr = some e) →
      ∃ b, getattrStream streams attr = some b ∧ b.stream = attr ∧
        ∀ dfltContainer kwargs resp,
          b.run dfltContainer kwargs resp =
            streamDSGet attr "txt" none dfltContainer kwargs resp) ∧
    (dictLookup streams attr = none → getattrStream streams attr = none) := by
  constructor
  · rintro ⟨e, he⟩
    refine ⟨⟨attr⟩, ?_, rfl, fun _ _ _ => rfl⟩
    unfold getattrStream
    rw [he]
  · intro h
    unfold getattrStream
    rw [h]

/-- Claim C6 witness: a concrete one-entry catalog exposing detectors and
rejecting a non-listed name. -/
theorem c6_getattr_catalog_witness :
    (∃ b, getattrStream [("detectors", ⟨[("stream", "detectors")]⟩)] "detectors" = some b ∧
      b.stream = "detectors" ∧
      ∀ dfltContainer kwargs resp,
        b.run dfltContainer kwargs resp =
          streamDSGet "detectors" "txt" none dfltContainer kwargs resp) ∧
    getattrStream [("detectors", ⟨[("stream", "detectors")]⟩)] "foo" = none :=
  ⟨(c6_getattr_catalog [("detectors", ⟨[("stream", "detectors")]⟩)] "detectors").1
     ⟨⟨[("stream", "detectors")]⟩, rfl⟩,
   (c6_getattr_catalog [("detectors", ⟨[("stream", "detectors")]⟩)] "foo").2 rfl⟩

/-! ## Claim C7 -/

/-- Claim C7 (code bug): the claim states that for a record set with two
du=3 rows of which exactly one has floor 0, base(3) returns that row.  In
this source tonamedtuples performs no type conversion, so every field is a
string, and the comparison clb.floor == 0 on tools.py line 197 compares a
string against the int literal 0, which is always False in Python: the
base dict stays empty and base raises KeyError for every key, whether the
int 3 of the claim or the string value actually stored in the du field. -/
theorem c7_base_lookup_always_raises :
    pyEq (PyVal.str "0") (PyVal.int 0) = false ∧
    baseDict [⟨.str "u1", .str "d1", .str "3", .str "0"⟩,
              ⟨.str "u2", .str "d2", .str "3", .str "5"⟩] = [] ∧
    clbBase [⟨.str "u1", .str "d1", .str "3", .str "0"⟩,
             ⟨.str "u2", .str "d2", .str "3", .str "5"⟩] (.int 3) = none ∧
    clbBase [⟨.str "u1", .str "d1", .str "3", .str "0"⟩,
             ⟨.str "u2", .str "d2", .str "3", .str "5"⟩] (.str "3") = none := by
  decide

/-! ## Claim C10 -/

/-- Claim C10: when no content UPI of the integration stream contains AHRS
or LSM303, clbupi2compassupi raises IndexError (indexing an empty list)
rather than returning None; when at least one matches it returns the first
match, and it logs a warning exactly when more than one matches. -/
theorem c10_compass_first_or_raise (clbUpi : String) (upis : List String) :
    (compassMatches upis = [] →
      (clbupi2compassupi clbUpi upis).1 =
        Except.error "IndexError: list index out of range") ∧
    (∀ u rest, compassMatches upis = u :: rest →
      (clbupi2compassupi clbUpi upis).1 = Except.ok (some u) ∧
      ((clbupi2compassupi clbUpi upis).2 ≠ [] ↔ rest ≠ [])) ∧
    (clbupi2compassupi clbUpi upis).1 ≠ Except.ok none := by
  refine ⟨?_, ?_, ?_⟩
  · intro h
    simp [clbupi2compassupi, h]
  · intro u rest h
    constructor
    · simp [clbupi2compassupi, h]
    · cases rest with
      | nil => simp [clbupi2compassupi, h]
      | cons r rs =>
        simp [clbupi2compassupi, h]
  · cases h : compassMatches upis with
    | nil => simp [clbupi2compassupi, h]
    | cons u rest => simp [clbupi2compassupi, h]

/-- Claim C10 witness: the theorem applied at a list with no compass match
and at a list with exactly one. -/
theorem c10_compass_first_or_raise_witness :
    (clbupi2compassupi "clb" ["3.4.3.4/X/1.1"]).1 =
      Except.error "IndexError: list index out of range" ∧
    (clbupi2compassupi "clb" ["3.4.3.4/AHRS/1.551"]).1 =
      Except.ok (some "3.4.3.4/AHRS/1.551") :=
  ⟨(c10_compass_first_or_raise "clb" ["3.4.3.4/X/1.1"]).1 (by decide),
   ((c10_compass_first_or_raise "clb" ["3.4.3.4/AHRS/1.551"]).2.1
     "3.4.3.4/AHRS/1.551" [] (by decide)).1⟩

/-! ## Claim C8 -/

/-- Claim C8: index round-trip for the CLBMap indices: for every record r
in the source record set, the upi-keyed index maps r.upi back to r and the
domid-keyed index maps r.domid back to r, under the hypothesis that the
respective key field is unique across the record set. -/
theorem c8_index_roundtrip (data : List CLB) (r : CLB) (hr : r ∈ data)
    (hu : data.Pairwise (fun a b => a.upi ≠ b.upi))
    (hd : data.Pairwise (fun a b => a.domid ≠ b.domid)) :
    dictLookup (upisDict data) r.upi = some r ∧
    dictLookup (domIdsDict data) r.domid = some r := by
  constructor
  · exact dictLookup_populate_mem (fun c => c.upi) data hu r hr []
  · exact dictLookup_populate_mem (fun c => c.domid) data hd r hr []

/-- Claim C8 witness: the round-trip theorem applied to a concrete
two-record set with distinct upi and domid fields. -/
theorem c8_index_roundtrip_witness :
    dictLookup (upisDict [(⟨.str "u1", .str "d1", .str "1", .str "0"⟩ : CLB),
                          ⟨.str "u2", .str "d2", .str "1", .str "1"⟩])
        (CLB.upi ⟨.str "u1", .str "d1", .str "1", .str "0"⟩) =
      some ⟨.str "u1", .str "d1", .str "1", .str "0"⟩ ∧
    dictLookup (domIdsDict [(⟨.str "u1", .str "d1", .str "1", .str "0"⟩ : CLB),
                            ⟨.str "u2", .str "d2", .str "1", .str "1"⟩])
        (CLB.domid ⟨.str "u1", .str "d1", .str "1", .str "0"⟩) =
      some ⟨.str "u1", .str "d1", .str "1", .str "0"⟩ :=
  c8_index_roundtrip
    [⟨.str "u1", .str "d1", .str "1", .str "0"⟩, ⟨.str "u2", .str "d2", .str "1", .str "1"⟩]
    ⟨.str "u1", .str "d1", .str "1", .str "0"⟩
    (by decide) (by decide) (by decide)

/-! ## Claim C9: helper lemmas for the sort order and the catalog keys -/

theorem charListLe_total (a b : List Char) :
    charListLe a b = true ∨ charListLe b a = true := by
  induction a generalizing b with
  | nil => exact Or.inl rfl
  | cons x xs ih =>
    cases b with
    | nil => exact Or.inr rfl
    | cons y ys =>
      rcases lt_trichotomy x y with h | h | h
      · exact Or.inl (by simp [charListLe, h])
      · subst h
        rcases ih ys with h2 | h2
        · exact Or.inl (by simp [charListLe, lt_irrefl x, h2])
        · exact Or.inr (by simp [charListLe, lt_irrefl x, h2])
      · exact Or.inr (by simp [charListLe, h])

theorem charListLe_trans {a b c : List Char} (h1 : charListLe a b = true)
    (h2 : charListLe b c = true) : charListLe a c = true := by
  induction a generalizing b c with
  | nil => rfl
  | cons x xs ih =>
    cases b with
    | nil => simp [charListLe] at h1
    | cons y ys =>
      cases c with
      | nil => simp [charListLe] at h2
      | cons z zs =>
        by_cases hxy : x < y
        · by_cases hyz : y < z
          · simp [charListLe, lt_trans hxy hyz]
          · by_cases hyz2 : y = z
            · subst hyz2
              simp [charListLe, hxy]
            · simp [charListLe, hyz, hyz2] at h2
        · by_cases hxy2 : x = y
          · subst hxy2
            simp [charListLe, hxy] at h1
            by_cases hxz : x < z
            · simp [charListLe, hxz]
            · by_cases hxz2 : x = z
              · subst hxz2
                simp [charListLe, hxz] at h2
                simp [charListLe, hxz, ih h1 h2]
              · simp [charListLe, hxz, hxz2] at h2
          · simp [charListLe, hxy, hxy2] at h1

theorem streamLe_total : ∀ a b : PyRec, streamLe a b ∨ streamLe b a :=
  fun a b => charListLe_total (streamKey a).data (streamKey b).data

theorem streamLe_trans : ∀ a b c : PyRec, streamLe a b → streamLe b c → streamLe a c :=
  fun _ _ _ h1 h2 => charListLe_trans h1 h2

theorem tonamedtuples_sorted_of_sort {text : String} {es : List PyRec}
    (h : tonamedtuples text true = some es) : es.Pairwise streamLe := by
  simp only [tonamedtuples] at h
  split at h
  · split at h
    · simp at h
    · rename_i recs heq
      split at h
      · split at h
        · injection h with h
          subst h
          have ht : IsTotal PyRec streamLe := ⟨streamLe_total⟩
          have htr : IsTrans PyRec streamLe := ⟨fun _ _ _ => streamLe_trans _ _ _⟩
          exact List.sorted_insertionSort streamLe recs
        · simp at h
      · rename_i hf
        exact absurd trivial hf
  · simp at h

theorem dictInsert_keys {α β : Type} [DecidableEq α] (m : List (α × β)) (k : α) (v : β) :
    (dictInsert m k v).map Prod.fst = m.map Prod.fst ∨
    (dictInsert m k v).map Prod.fst = m.map Prod.fst ++ [k] := by
  induction m with
  | nil => exact Or.inr rfl
  | cons p rest ih =>
    obtain ⟨k', v'⟩ := p
    by_cases h : k' = k
    · exact Or.inl (by simp [dictInsert, h])
    · rcases ih with h2 | h2
      · exact Or.inl (by simp [dictInsert, h, h2])
      · exact Or.inr (by simp [dictInsert, h, h2])

theorem foldl_dictInsert_keys_sublist (es : List PyRec) :
    ∀ m : List (String × PyRec),
      ((es.foldl (fun m e => dictInsert m (streamKey e) e) m).map Prod.fst).Sublist
        (m.map Prod.fst ++ es.map streamKey) := by
  induction es with
  | nil =>
    intro m
    simp
  | cons e es ih =>
    intro m
    simp only [List.foldl_cons, List.map_cons]
    rcases dictInsert_keys m (streamKey e) e with h | h
    · have hh := ih (dictInsert m (streamKey e) e)
      rw [h] at hh
      exact hh.trans (List.Sublist.append_left (List.sublist_cons_self _ _) _)
    · have hh := ih (dictInsert m (streamKey e) e)
      rw [h] at hh
      rw [List.append_assoc] at hh
      simpa using hh

/-- Claim C9: for every server-provided catalog listing that
_update_streams successfully parses, the built catalog enumerates its
entries with the stream-name keys in ascending lexicographic order. -/
theorem c9_catalog_sorted (content : String) (catalog : List (String × PyRec))
    (h : updateStreams content = some catalog) :
    catalog.Pairwise (fun a b => pyStrLe a.1 b.1 = true) := by
  unfold updateStreams at h
  split at h
  · exact Option.noConfusion h
  · rename_i entries heq
    injection h with h
    subst h
    have hsorted : entries.Pairwise streamLe := tonamedtuples_sorted_of_sort heq
    have hkeys : (entries.map streamKey).Pairwise (fun a b => pyStrLe a b = true) := by
      rw [List.pairwise_map]
      exact hsorted
    have hsub := foldl_dictInsert_keys_sublist entries []
    simp only [List.map_nil, List.nil_append] at hsub
    have hpw := List.Pairwise.sublist hsub hkeys
    rw [List.pairwise_map] at hpw
    exact hpw

/-- Claim C9 witness: a concrete catalog listing handed to the server in
reverse alphabetical order comes out sorted by stream name. -/
theorem c9_catalog_sorted_witness :
    updateStreams "STREAM INFO\nrunz\tx\ndetectors\ty" =
      some [("detectors", ⟨[("stream", "detectors"), ("info", "y")]⟩),
            ("runz", ⟨[("stream", "runz"), ("info", "x")]⟩)] ∧
    List.Pairwise (fun a b : String × PyRec => pyStrLe a.1 b.1 = true)
      [("detectors", ⟨[("stream", "detectors"), ("info", "y")]⟩),
       ("runz", ⟨[("stream", "runz"), ("info", "x")]⟩)] :=
  ⟨by decide,
   c9_catalog_sorted "STREAM INFO\nrunz\tx\ndetectors\ty" _ (by decide)⟩
